import Mathlib

/-!
Verification of the debate-lifecycle core of the AI debate platform backend.

The development shallowly embeds the Python sources:
  * `src/models/debate.py` (`Debate`, `DebateArgument`, `Debate.from_dict`)
  * `src/models/personality.py` (`AIPersonality`, `AIPersonality.update_stats`,
    `AIPersonality.get_win_rate`)
  * `src/services/debate_service.py` (`DebateService`: `create_debate`,
    `start_debate`, `add_argument`, `update_round`, `end_debate`,
    `judge_debate`, `add_vote`)
  * `src/services/personality_service.py`
    (`PersonalityService.update_personality_stats`)
  * `src/services/ai_service.py` (`AIService.generate_debate_round`,
    `_generate_argument`, `_clean_and_validate_argument`,
    `_create_fallback_argument`, `_generate_fallback_argument`)
  * `src/routes/api.py` (the `start`, `next-round`, `judge` route handlers)
  * `src/utils/helpers.py` (`calculate_win_rate`)
  * `src/config.py` (`Config`)

Modelling conventions: a MongoDB debate document is a `DebateDoc`; a Python
`Debate` object built by `Debate.from_dict` is a `Debate` (its
`voter_records` field is an `Option`, `none` meaning the attribute is absent
on the Python object).  Mongo `update_one` calls on a single debate document
become pure functions `DebateDoc → DebateDoc`; `update_one` is atomic per
document, so concurrent conditional updates are modelled as sequential
applications in either order.  The text generator (a transformers pipeline)
is an oracle `Option String`: `some raw` is the generated text after the
prompt has been cut off, `none` is a generator failure / absent generator /
raised exception.  `random.shuffle` is modelled by quantifying over the
roster list order, and `random.choice` by an arbitrary index argument.
Object ids and timestamps are omitted: no claim mentions them.  Strings are
treated as sequences of characters (Python `str`); the regular expressions
in `_clean_and_validate_argument` are unfolded to explicit character-list
functions, restricted to the ASCII whitespace and word characters that the
relevant Python character classes contain.
-/

/-- `Config` values from `src/config.py` used by the lifecycle core. -/
def Config.MAX_DEBATE_ROUNDS : Nat := 3

/-- `Config.MAX_ARGUMENT_LENGTH` from `src/config.py`. -/
def Config.MAX_ARGUMENT_LENGTH : Nat := 500

/-- An AI personality registry entry (`src/models/personality.py`,
`AIPersonality.__init__`).  The running statistics default to zero exactly as
in the constructor; `average_votes` is kept as an exact rational. -/
structure AIPersonality where
  name : String
  description : String := ""
  debate_style : String := ""
  system_prompt : String := ""
  wins : Nat := 0
  total_debates : Nat := 0
  total_arguments : Nat := 0
  average_votes : ℚ := 0
  deriving Repr, DecidableEq

/-- A debate argument (`src/models/debate.py`, `DebateArgument.__init__`);
`votes` is the argument-level counter, initialised to 0. -/
structure DebateArgument where
  personality_id : String
  content : String
  round_number : Nat
  votes : Nat := 0
  deriving Repr, DecidableEq

/-- The persisted debate document (the dict stored in the `debates`
collection).  `votes` and `voter_records` are insertion-ordered association
lists standing for the Mongo subdocuments `votes.{personality_id}` and
`voter_records.{voter_id}`.  A freshly inserted document has no
`voter_records` subdocument at all; the empty list models that state, and
`$set voter_records.{v}` creates entries. -/
structure DebateDoc where
  topic : String
  creator_id : Option String := none
  status : String
  participants : List String
  arguments : List DebateArgument
  current_round : Nat
  max_rounds : Nat
  winner : Option String := none
  judge_decision : Option String := none
  judge_id : Option String := none
  votes : List (String × Nat)
  total_votes : Nat
  voter_records : List (String × String)
  deriving Repr, DecidableEq

/-- The in-memory Python `Debate` object.  It mirrors `DebateDoc`, except
that `voter_records` is an `Option`: `none` models the Python object not
having a `voter_records` attribute at all (neither `Debate.__init__` nor
`Debate.from_dict` ever assigns one), which is what
`hasattr(debate, 'voter_records')` inspects in `DebateService.add_vote`. -/
structure Debate where
  topic : String
  creator_id : Option String := none
  status : String
  participants : List String
  arguments : List DebateArgument
  current_round : Nat
  max_rounds : Nat
  winner : Option String := none
  judge_decision : Option String := none
  judge_id : Option String := none
  votes : List (String × Nat)
  total_votes : Nat
  voter_records : Option (List (String × String))
  deriving Repr, DecidableEq

/-- `Debate.from_dict` (src/models/debate.py, lines 54-70).  It copies
`topic`, `creator_id`, `status`, `participants`, `arguments`,
`current_round`, `max_rounds`, `winner`, `judge_decision`, `judge_id`,
`votes` and `total_votes` from the stored document — and nothing else: in
particular it never assigns `voter_records`, so the resulting Python object
has no such attribute (`none` here), whatever the document holds. -/
def Debate.from_dict (d : DebateDoc) : Debate where
  topic := d.topic
  creator_id := d.creator_id
  status := d.status
  participants := d.participants
  arguments := d.arguments
  current_round := d.current_round
  max_rounds := d.max_rounds
  winner := d.winner
  judge_decision := d.judge_decision
  judge_id := d.judge_id
  votes := d.votes
  total_votes := d.total_votes
  voter_records := none

/-- `DebateService.create_debate` composed with `Debate.__init__`
(src/services/debate_service.py lines 17-31, src/models/debate.py lines
6-22): a fresh document with status `"created"`, `participants` set to the
names of the personalities returned by the registry
(`get_debate_personalities`), one round, three max rounds, empty votes. -/
def DebateService.create_debate (topic : String) (creator_id : Option String)
    (roster : List AIPersonality) : DebateDoc where
  topic := topic
  creator_id := creator_id
  status := "created"
  participants := roster.map (·.name)
  arguments := []
  current_round := 1
  max_rounds := 3
  votes := []
  total_votes := 0
  voter_records := []

/-- `DebateService.start_debate` (lines 98-121): a single conditional
`update_one` matching `{'_id': …, 'status': 'created'}` and setting
`status := 'in_progress'`.  `modified_count > 0` iff the filter matched, so
the call returns the updated debate on a match and `None` otherwise. -/
def DebateService.start_debate (d : DebateDoc) : Option DebateDoc :=
  if d.status = "created" then some { d with status := "in_progress" } else none

/-- `DebateService.add_argument` (lines 123-142): `$push` one argument. -/
def DebateService.add_argument (d : DebateDoc) (a : DebateArgument) : DebateDoc :=
  { d with arguments := d.arguments ++ [a] }

/-- `DebateService.update_round` (lines 167-188): `$set current_round`. -/
def DebateService.update_round (d : DebateDoc) (round_number : Nat) : DebateDoc :=
  { d with current_round := round_number }

/-- `DebateService.end_debate` (lines 190-211): `$set status := 'completed'`
with no condition on the current status. -/
def DebateService.end_debate (d : DebateDoc) : DebateDoc :=
  { d with status := "completed" }

/-- `$inc votes.{personality_id} : 1` on the `votes` subdocument: bump the
existing entry, or create it with value 1. -/
def incVote : List (String × Nat) → String → List (String × Nat)
  | [], pid => [(pid, 1)]
  | (k, v) :: rest, pid =>
      if k = pid then (k, v + 1) :: rest else (k, v) :: incVote rest pid

/-- `$set voter_records.{voter_id} : personality_id`: overwrite the existing
entry or append a new one. -/
def setVoterRecord : List (String × String) → String → String → List (String × String)
  | [], vid, pid => [(vid, pid)]
  | (k, v) :: rest, vid, pid =>
      if k = vid then (k, pid) :: rest else (k, v) :: setVoterRecord rest vid pid

/-- Sum of the `votes` map values (`sum(votes.values())`). -/
def sumVotes (votes : List (String × Nat)) : Nat :=
  (votes.map Prod.snd).sum

/-- `DebateService.add_vote` (lines 249-291).  The service re-reads the
debate through `Debate.from_dict`, reconstructs `voter_records` via
`hasattr`/`getattr` with default `{}`, rejects if the voter id is a key of
that dictionary, and otherwise performs one atomic
`$inc votes.{pid}/total_votes` plus `$set voter_records.{voter}` update.
Returns the flag reported to the route and the updated document. -/
def DebateService.add_vote (d : DebateDoc) (personality_id voter_id : String) :
    Bool × DebateDoc :=
  let debate := Debate.from_dict d
  let voter_records : List (String × String) :=
    match debate.voter_records with
    | some vr => vr
    | none => []
  if (voter_records.lookup voter_id).isSome then
    (false, d)
  else
    (true, { d with
      votes := incVote d.votes personality_id
      total_votes := d.total_votes + 1
      voter_records := setVoterRecord d.voter_records voter_id personality_id })

/-- `DebateService.judge_debate` (lines 213-247): an unconditional
`update_one` on `_id` setting `status/winner/judge_decision/judge_id`
(it always modifies an existing document since `updated_at` changes), then
one `update_personality_stats(winner, True)` followed by
`update_personality_stats(p, False)` for every other participant of the
re-fetched debate.  The second component lists those stat updates in call
order as `(name, won)` pairs. -/
def DebateService.judge_debate (d : DebateDoc) (winner reasoning : String)
    (judge_id : Option String) : DebateDoc × List (String × Bool) :=
  let d1 : DebateDoc :=
    { d with
      status := "judged"
      winner := some winner
      judge_decision := some reasoning
      judge_id := judge_id }
  (d1, (winner, true) :: (d1.participants.filter (· ≠ winner)).map (fun p => (p, false)))

/-! ### Character-level string helpers

Python `str` values are sequences of characters; the regular-expression
rewrites of `AIService._clean_and_validate_argument` are expressed as
functions on `List Char`.  The models of `\s` and `\w` cover the ASCII
characters of those Python classes. -/

/-- ASCII characters matched by Python `\s` (and stripped by `str.strip`). -/
def isPySpace (c : Char) : Bool :=
  c = ' ' || c = '\t' || c = '\n' || c = '\r' || c = '\x0b' || c = '\x0c'

/-- ASCII characters matched by Python `\w`. -/
def isPyWord (c : Char) : Bool :=
  c.isAlphanum || c = '_'

/-- The double-quote character. -/
def dquoteChar : Char := Char.ofNat 34

/-- The single-quote (apostrophe) character. -/
def squoteChar : Char := Char.ofNat 39

/-- A character matched by the `["\…]` class in the quote-stripping regex. -/
def isQuoteChar (c : Char) : Bool :=
  c = dquoteChar || c = squoteChar

/-- `str.strip()`: drop leading and trailing whitespace. -/
def stripList (l : List Char) : List Char :=
  ((l.dropWhile isPySpace).reverse.dropWhile isPySpace).reverse

/-- `str.rstrip()`: drop trailing whitespace. -/
def rstripList (l : List Char) : List Char :=
  (l.reverse.dropWhile isPySpace).reverse

/-- The `^["…]` alternative of the quote-stripping pattern: remove one
leading quote character. -/
def dropLeadingQuote : List Char → List Char
  | [] => []
  | c :: rest => if isQuoteChar c then rest else c :: rest

/-- The `["…]$` alternative: `$` matches at the end of the string or just
before a final newline, so the removed quote is the last character, or the
one preceding a final `'\n'`. -/
def dropTrailingQuote (l : List Char) : List Char :=
  match l.reverse with
  | [] => l
  | c :: rest =>
    if isQuoteChar c then rest.reverse
    else if c = '\n' then
      match rest with
      | [] => l
      | q :: rest2 => if isQuoteChar q then (c :: rest2).reverse else l
    else l

/-- `re.sub(p+, ' ', s)` for a character class `p`: replace every maximal
run of characters satisfying `p` by a single space. -/
def collapseRuns (p : Char → Bool) : List Char → List Char
  | [] => []
  | c :: rest =>
    if p c then ' ' :: collapseRuns p (rest.dropWhile p)
    else c :: collapseRuns p rest
termination_by l => l.length
decreasing_by
  · exact Nat.lt_succ_of_le ((List.dropWhile_sublist _).length_le)
  · exact Nat.lt_succ_self _

/-- The tail `\s+\w+[,:]?\s*` of the self-reference pattern, applied after
the alternation group has consumed its characters: at least one whitespace
character, at least one word character, an optional comma or colon, then any
further whitespace.  Returns the remaining suffix on a match. -/
def selfRefTail (l : List Char) : Option (List Char) :=
  let l1 := l.dropWhile isPySpace
  if l1.length = l.length then none
  else
    let l2 := l1.dropWhile isPyWord
    if l2.length = l1.length then none
    else
      let l3 :=
        match l2 with
        | c :: rest => if c = ',' || c = ':' then rest else l2
        | [] => l2
      some (l3.dropWhile isPySpace)

/-- `re.sub(r'^(As|I am|I…m)\s+\w+[,:]?\s*', '', s, flags=IGNORECASE)`:
the three alternatives have pairwise-incompatible prefixes, so the match is
deterministic; on a full match the prefix is removed, otherwise the string
is unchanged. -/
def stripSelfRef (l : List Char) : List Char :=
  let low := l.map Char.toLower
  let groupLen : Option Nat :=
    if low.take 2 = ['a', 's'] then some 2
    else if low.take 4 = ['i', ' ', 'a', 'm'] then some 4
    else if low.take 3 = ['i', squoteChar, 'm'] then some 3
    else none
  match groupLen with
  | none => l
  | some n =>
    match selfRefTail (l.drop n) with
    | some rest => rest
    | none => l

/-- `str.split('. ')`: split on every occurrence of the two-character
separator. -/
def splitSentences : List Char → List (List Char)
  | [] => [[]]
  | '.' :: ' ' :: rest => [] :: splitSentences rest
  | c :: rest =>
    match splitSentences rest with
    | s :: ss => (c :: s) :: ss
    | [] => [[c]]

/-- `s.endswith(('.', '!', '?'))`: the last character is terminal
punctuation (false on the empty string). -/
def endsTerm (l : List Char) : Bool :=
  match l.getLast? with
  | some c => c = '.' || c = '!' || c = '?'
  | none => false

/-- `s.endswith('.')`. -/
def endsDot (l : List Char) : Bool :=
  match l.getLast? with
  | some c => c = '.'
  | none => false

/-- The incomplete-final-sentence removal of
`_clean_and_validate_argument`: split on `'. '`; when there are at least two
sentences and the right-stripped last one lacks terminal punctuation, drop
it, re-join with `'. '`, and re-append a `'.'` to a nonempty result that
does not already end in one. -/
def dropIncompleteSentence (l : List Char) : List Char :=
  let sentences := splitSentences l
  if sentences.length > 1 then
    if !endsTerm (rstripList (sentences.getLastD [])) then
      let argument := List.intercalate ['.', ' '] sentences.dropLast
      if !argument.isEmpty && !endsDot argument then argument ++ ['.']
      else argument
    else l
  else l

/-- The final step of `_clean_and_validate_argument`: strip, then append a
`'.'` to a nonempty result lacking terminal punctuation. -/
def ensureTerminal (l : List Char) : List Char :=
  if !l.isEmpty && !endsTerm l then l ++ ['.'] else l

/-- `AIService._clean_and_validate_argument` (src/services/ai_service.py
lines 225-250) on the character list: strip one surrounding quote on each
side, collapse newline runs then whitespace runs to single spaces, remove a
leading self-reference, drop a trailing incomplete sentence, strip, and
guarantee terminal punctuation. -/
def cleanList (l : List Char) : List Char :=
  ensureTerminal (stripList (dropIncompleteSentence (stripSelfRef
    (collapseRuns isPySpace (collapseRuns (· = '\n')
      (dropTrailingQuote (dropLeadingQuote l)))))))

/-- `AIService._clean_and_validate_argument` on strings; an empty (falsy)
argument short-circuits to the empty string. -/
def AIService.clean_and_validate_argument (s : String) : String :=
  if s = "" then "" else String.mk (cleanList s.data)

/-! ### Fallback templates and argument generation -/

/-- The `fallback_templates` dictionary of
`AIService._generate_fallback_argument` (src/services/ai_service.py lines
261-306), as a lookup from personality name to the topic-interpolated
template list, with the single-element default list for unknown names. -/
def fallbackTemplates (name topic : String) : List String :=
  if name = "The Philosopher" then
    [ "From an ethical standpoint, we must carefully examine the moral implications of " ++ topic ++ " and consider how it affects human dignity and our collective well-being."
    , "The philosophical question we must ask about " ++ topic ++ " is: what does this mean for our understanding of justice, truth, and the good life?"
    , "History of philosophy teaches us that complex issues like " ++ topic ++ " require us to balance competing moral principles and consider long-term consequences." ]
  else if name = "The Scientist" then
    [ "The evidence regarding " ++ topic ++ " requires rigorous analysis of peer-reviewed research and empirical data before we can reach valid conclusions."
    , "From a scientific perspective, we need more controlled studies and data collection to fully understand the implications of " ++ topic ++ "."
    , "The methodology for evaluating " ++ topic ++ " must be based on reproducible experiments and statistical significance." ]
  else if name = "The Advocate" then
    [ "We must examine how " ++ topic ++ " impacts marginalized communities and ensure that justice and equality remain our guiding principles."
    , "The human rights implications of " ++ topic ++ " cannot be ignored - we must protect the most vulnerable in our society."
    , "Social justice demands that we consider " ++ topic ++ " through the lens of equity and fairness for all people." ]
  else if name = "The Pragmatist" then
    [ "The practical implementation of policies regarding " ++ topic ++ " must consider cost-effectiveness, resource allocation, and real-world feasibility."
    , "Let\x27s focus on actionable solutions for " ++ topic ++ " that can be implemented efficiently and measured for success."
    , "The bottom line on " ++ topic ++ " is what actually works in practice, not just what sounds good in theory." ]
  else if name = "The Contrarian" then
    [ "Popular opinion about " ++ topic ++ " may be fundamentally misguided - we should question our assumptions and consider alternative perspectives."
    , "The conventional wisdom regarding " ++ topic ++ " deserves skeptical examination. What if the majority view is wrong?"
    , "Before accepting mainstream conclusions about " ++ topic ++ ", let\x27s challenge the underlying premises and explore contrarian viewpoints." ]
  else if name = "The Historian" then
    [ "History shows us clear patterns regarding " ++ topic ++ " that we can learn from to avoid repeating past mistakes."
    , "Looking at historical precedents for " ++ topic ++ ", we can see how similar situations have played out across different eras and cultures."
    , "The lessons of history regarding " ++ topic ++ " remind us that those who ignore the past are doomed to repeat its errors." ]
  else
    [ "This is an important topic that deserves thoughtful consideration from multiple perspectives, including the unique viewpoint I bring as " ++ name ++ "." ]

/-- `AIService._generate_fallback_argument` (lines 261-306): look the
personality name up in the template table and return one of the templates;
`random.choice` is modelled by the index `i`, reduced modulo the list
length.  The `round_number` argument is accepted but unused, as in the
source. -/
def AIService.generate_fallback_argument (p : AIPersonality) (topic : String)
    (round_number : Nat) (i : Nat) : String :=
  let templates := fallbackTemplates p.name topic
  templates.getD (i % templates.length) ""

/-- `AIService._create_fallback_argument` (lines 252-259): wrap the fallback
text in a `DebateArgument` for the requested round. -/
def AIService.create_fallback_argument (p : AIPersonality) (topic : String)
    (round_number : Nat) (i : Nat) : DebateArgument where
  personality_id := p.name
  content := AIService.generate_fallback_argument p topic round_number i
  round_number := round_number

/-- `AIService._generate_argument` (lines 131-173).  `genOut` is the
generator oracle: `none` models an absent generator or a raised exception
(both return fallback text), `some raw` the generated text after the prompt
prefix has been removed.  The raw text is stripped, cleaned by
`_clean_and_validate_argument`, replaced by the fallback when shorter than
20 characters, and truncated to `Config.MAX_ARGUMENT_LENGTH` with a
three-dot ellipsis when too long. -/
def AIService.generate_argument (p : AIPersonality) (topic : String)
    (round_number : Nat) (genOut : Option String) (i : Nat) : String :=
  match genOut with
  | none => AIService.generate_fallback_argument p topic round_number i
  | some raw =>
    let argument := AIService.clean_and_validate_argument (String.mk (stripList raw.data))
    if argument.length < 20 then
      AIService.generate_fallback_argument p topic round_number i
    else if argument.length > Config.MAX_ARGUMENT_LENGTH then
      String.mk (argument.data.take (Config.MAX_ARGUMENT_LENGTH - 3) ++ ['.', '.', '.'])
    else argument

/-- `AIService.generate_debate_round` (lines 92-129): iterate over the
personalities returned by the registry (`get_debate_personalities`) — not
over the debate's `participants` — and produce exactly one argument per
roster personality for the requested round; a generation failure yields the
fallback argument via `_create_fallback_argument`.  `random.shuffle` only
permutes the roster, so the roster list is taken in an arbitrary caller
order. -/
def AIService.generate_debate_round (roster : List AIPersonality)
    (gen : AIPersonality → Option String) (choose : AIPersonality → Nat)
    (topic : String) (round_number : Nat) : List DebateArgument :=
  roster.map fun p =>
    match gen p with
    | some raw =>
      { personality_id := p.name
        content := AIService.generate_argument p topic round_number (some raw) (choose p)
        round_number := round_number }
    | none => AIService.create_fallback_argument p topic round_number (choose p)

/-- The `for arg in arguments: debate_service.add_argument(...)` loops of
the start and next-round route handlers. -/
def add_arguments (d : DebateDoc) (args : List DebateArgument) : DebateDoc :=
  args.foldl DebateService.add_argument d

/-! ### Route handlers (src/routes/api.py) -/

/-- Outcome of the `POST /debates/<id>/start` handler. -/
inductive StartOutcome where
  | alreadyStarted
  | raceLost
  | started
  deriving Repr, DecidableEq

/-- The `start_debate` route (src/routes/api.py lines 103-150), for an
existing debate document: reject with 400 when the fetched status is not
`created`; otherwise run the service conditional update (which can still
lose a race and fail), then generate the round-1 arguments over the current
registry roster and append each one. -/
def api.start_debate_route (d : DebateDoc) (gen : AIPersonality → Option String)
    (choose : AIPersonality → Nat) (roster : List AIPersonality) :
    StartOutcome × DebateDoc :=
  if !(d.status = "created") then (.alreadyStarted, d)
  else
    match DebateService.start_debate d with
    | none => (.raceLost, d)
    | some d1 =>
      let args := AIService.generate_debate_round roster gen choose d1.topic 1
      (.started, add_arguments d1 args)

/-- Outcome of the `POST /debates/<id>/next-round` handler. -/
inductive NextRoundOutcome where
  | notInProgress
  | ended
  | advanced
  deriving Repr, DecidableEq

/-- The `next_round` route (src/routes/api.py lines 152-208), for an
existing debate document: requires status `in_progress`; when
`current_round + 1` exceeds `max_rounds` it calls `end_debate` and appends
nothing; otherwise it generates the next round's arguments over the current
registry roster, appends them, and sets `current_round`. -/
def api.next_round_route (d : DebateDoc) (gen : AIPersonality → Option String)
    (choose : AIPersonality → Nat) (roster : List AIPersonality) :
    NextRoundOutcome × DebateDoc :=
  if !(d.status = "in_progress") then (.notInProgress, d)
  else
    let next_round_num := d.current_round + 1
    if next_round_num > d.max_rounds then (.ended, DebateService.end_debate d)
    else
      let args := AIService.generate_debate_round roster gen choose d.topic next_round_num
      (.advanced, DebateService.update_round (add_arguments d args) next_round_num)

/-- Outcome of the `POST /debates/<id>/judge` handler. -/
inductive JudgeOutcome where
  | alreadyJudged
  | notCompleted
  | invalidWinner
  | judged
  deriving Repr, DecidableEq

/-- The `judge_debate` route (src/routes/api.py lines 210-259), for an
existing debate document: status `judged` is rejected first with the
distinct "Debate already jugded." message; then the status must be
`completed` or `in_progress`; then the winner must be a participant; only
then does the service judge the debate and run the personality stat
updates.  The third component lists the `(name, won)` stat updates the call
performs. -/
def api.judge_debate_route (d : DebateDoc) (winner reasoning : String)
    (judge_id : Option String) : JudgeOutcome × DebateDoc × List (String × Bool) :=
  if d.status = "judged" then (.alreadyJudged, d, [])
  else if !(d.status = "completed" || d.status = "in_progress") then (.notCompleted, d, [])
  else if !(d.participants.contains winner) then (.invalidWinner, d, [])
  else
    let r := DebateService.judge_debate d winner reasoning judge_id
    (.judged, r.1, r.2)

/-- Debate documents reachable through the lifecycle operations, starting
from `create_debate`.  The parameter `R` constrains which registry rosters
the roster-reading operations (creation and the two argument-generating
routes) may observe: `fun _ => True` allows the registry to change
arbitrarily between calls, while `(· = roster)` models a registry that is
never modified during the debate's lifetime. -/
inductive ReachableFrom (R : List AIPersonality → Prop) : DebateDoc → Prop where
  | create (topic : String) (creator_id : Option String) (roster : List AIPersonality) :
      R roster → ReachableFrom R (DebateService.create_debate topic creator_id roster)
  | start (d : DebateDoc) (gen : AIPersonality → Option String)
      (choose : AIPersonality → Nat) (roster : List AIPersonality) :
      R roster → ReachableFrom R d →
      ReachableFrom R (api.start_debate_route d gen choose roster).2
  | next_round (d : DebateDoc) (gen : AIPersonality → Option String)
      (choose : AIPersonality → Nat) (roster : List AIPersonality) :
      R roster → ReachableFrom R d →
      ReachableFrom R (api.next_round_route d gen choose roster).2
  | vote (d : DebateDoc) (personality_id voter_id : String) :
      ReachableFrom R d →
      ReachableFrom R (DebateService.add_vote d personality_id voter_id).2
  | judge (d : DebateDoc) (winner reasoning : String) (judge_id : Option String) :
      ReachableFrom R d →
      ReachableFrom R (api.judge_debate_route d winner reasoning judge_id).2.1
  | end_debate (d : DebateDoc) :
      ReachableFrom R d → ReachableFrom R (DebateService.end_debate d)

/-! ### Personality statistics (src/models/personality.py,
src/services/personality_service.py, src/utils/helpers.py) -/

/-- Python `round(q, 2)` on an exact rational: banker's rounding (round
half to even) of `q * 100`, divided by 100. -/
def roundHalfEven (q : ℚ) : ℤ :=
  let f := ⌊q⌋
  if q - f < 1 / 2 then f
  else if q - f > 1 / 2 then f + 1
  else if f % 2 = 0 then f else f + 1

/-- `round(q, 2)`. -/
def roundTo2 (q : ℚ) : ℚ :=
  (roundHalfEven (q * 100) : ℚ) / 100

/-- `AIPersonality.update_stats` (src/models/personality.py lines 58-71):
increment `total_debates` and `total_arguments`, increment `wins` when
`won`, then recompute the running average — the source reads the already
incremented `total_arguments`, so `total_arguments - 1` is the old count. -/
def AIPersonality.update_stats (p : AIPersonality) (won : Bool)
    (votes_received : ℚ) : AIPersonality :=
  let p1 := { p with
    total_debates := p.total_debates + 1
    total_arguments := p.total_arguments + 1
    wins := p.wins + (if won then 1 else 0) }
  if p1.total_arguments > 1 then
    { p1 with average_votes :=
        (p1.average_votes * ((p1.total_arguments - 1 : Nat) : ℚ) + votes_received)
          / (p1.total_arguments : ℚ) }
  else
    { p1 with average_votes := votes_received }

/-- The new values computed by `PersonalityService.update_personality_stats`
(src/services/personality_service.py lines 76-124) from the stored document
fields; `stored_average` is the value written back, `round(new_avg, 2)`. -/
structure StatsUpdate where
  new_total_debates : Nat
  new_total_arguments : Nat
  new_wins : Nat
  new_average_votes : ℚ
  stored_average : ℚ
  deriving Repr, DecidableEq

/-- `PersonalityService.update_personality_stats` (lines 76-124): read the
current counters, compute `new_* = current_* + 1` (wins only when `won`),
and the running average
`(current_average_votes * current_total_arguments + votes_received) /
new_total_arguments`, falling back to `votes_received` for the first
argument; the stored average is rounded to two decimals. -/
def PersonalityService.update_personality_stats (current_wins current_total_debates
    current_total_arguments : Nat) (current_average_votes : ℚ) (won : Bool)
    (votes_received : ℚ) : StatsUpdate :=
  let new_total_debates := current_total_debates + 1
  let new_total_arguments := current_total_arguments + 1
  let new_wins := current_wins + (if won then 1 else 0)
  let new_average_votes :=
    if new_total_arguments > 1 then
      (current_average_votes * (current_total_arguments : ℚ) + votes_received)
        / (new_total_arguments : ℚ)
    else votes_received
  { new_total_debates := new_total_debates
    new_total_arguments := new_total_arguments
    new_wins := new_wins
    new_average_votes := new_average_votes
    stored_average := roundTo2 new_average_votes }

/-- Python `/` on numbers: raises `ZeroDivisionError` (modelled `none`) on a
zero divisor, otherwise exact division. -/
def pyDiv (a b : ℚ) : Option ℚ :=
  if b = 0 then none else some (a / b)

/-- `AIPersonality.get_win_rate` (src/models/personality.py lines 52-56):
`0.0` when `total_debates == 0`, otherwise
`round((wins / total_debates) * 100, 2)`. -/
def AIPersonality.get_win_rate (p : AIPersonality) : Option ℚ :=
  if p.total_debates = 0 then some 0
  else
    match pyDiv (p.wins : ℚ) (p.total_debates : ℚ) with
    | none => none
    | some r => some (roundTo2 (r * 100))

/-- `calculate_win_rate` (src/utils/helpers.py lines 295-299): the same
guard and formula as `AIPersonality.get_win_rate`. -/
def calculate_win_rate (wins total : Nat) : Option ℚ :=
  if total = 0 then some 0
  else
    match pyDiv (wins : ℚ) (total : ℚ) with
    | none => none
    | some r => some (roundTo2 (r * 100))

/-! ### Concrete sample data for closed evaluations -/

/-- The default registry entry named "The Philosopher". -/
def philosopherP : AIPersonality := { name := "The Philosopher" }

/-- The default registry entry named "The Scientist". -/
def scientistP : AIPersonality := { name := "The Scientist" }

/-- A generator oracle that always fails (absent model / raised
exception). -/
def genFail : AIPersonality → Option String := fun _ => none

/-- A template-choice oracle that always picks the first template. -/
def chooseZero : AIPersonality → Nat := fun _ => 0

/-- A 450-character topic; `validate_debate_data` accepts topics up to 500
characters. -/
def longTopic : String := String.mk (List.replicate 450 'a')

/-- The sample topic from the specification's walkthrough scenario. -/
def topicAV : String := "Should autonomous vehicles replace all human drivers?"

/-- A freshly created two-participant debate document. -/
def createdDoc : DebateDoc :=
  DebateService.create_debate topicAV none [philosopherP, scientistP]

/-- An in-progress debate document sitting at its final round. -/
def lastRoundDoc : DebateDoc :=
  { createdDoc with status := "in_progress", current_round := 3 }

/-- An already judged debate document. -/
def judgedDoc : DebateDoc :=
  { createdDoc with status := "judged", winner := some "The Philosopher" }

/-- An in-progress debate document in which voter `voter-1` has already
voted for The Philosopher: the vote was recorded in `votes`, `total_votes`
and `voter_records`. -/
def votedDoc : DebateDoc :=
  { createdDoc with
    status := "in_progress"
    votes := [("The Philosopher", 1)]
    total_votes := 1
    voter_records := [("voter-1", "The Philosopher")] }

/-- The state of a debate created while the registry held only The
Philosopher, then started after The Scientist was registered as well: the
start route generates round-1 arguments for the grown roster. -/
def mismatchStart : DebateDoc :=
  (api.start_debate_route
    (DebateService.create_debate "Registry grows after creation" none [philosopherP])
    genFail chooseZero [philosopherP, scientistP]).2

/-- `createdDoc` started with the registry unchanged since creation. -/
def startedDoc : DebateDoc :=
  (api.start_debate_route createdDoc genFail chooseZero [philosopherP, scientistP]).2

/-! ### Helper lemmas -/

theorem add_arguments_eq (args : List DebateArgument) (d : DebateDoc) :
    add_arguments d args = { d with arguments := d.arguments ++ args } := by
  induction args generalizing d with
  | nil => simp [add_arguments]
  | cons a as ih =>
    have h : add_arguments d (a :: as) = add_arguments (DebateService.add_argument d a) as := rfl
    rw [h, ih]
    simp [DebateService.add_argument]

theorem sumVotes_incVote (votes : List (String × Nat)) (pid : String) :
    sumVotes (incVote votes pid) = sumVotes votes + 1 := by
  induction votes with
  | nil => simp [incVote, sumVotes]
  | cons kv rest ih =>
    obtain ⟨k, v⟩ := kv
    by_cases h : k = pid <;> simp [incVote, h, sumVotes] at ih ⊢ <;> omega

/-! ### Claims C1, C2, C4, C5 -/

/-- Claim C1 (code bug witnessed): in `votedDoc`, voter `voter-1` is already
recorded in the document's `voter_records`, yet a second `add_vote` call
from the same voter is accepted (`True`) and increments both the voter's
chosen participant count and `total_votes` again — because
`Debate.from_dict` never restores `voter_records`, the duplicate-voter check
in `DebateService.add_vote` always sees an empty record set. -/
theorem duplicate_vote_accepted_bug :
    votedDoc.voter_records.lookup "voter-1" = some "The Philosopher"
    ∧ DebateService.add_vote votedDoc "The Philosopher" "voter-1"
        = (true, { votedDoc with
            votes := [("The Philosopher", 2)]
            total_votes := 2
            voter_records := [("voter-1", "The Philosopher")] }) := by
  constructor
  · rfl
  · rfl

/-- Claim C2: for every debate document whose status is already `judged`,
the judge route rejects the call with the distinct already-judged outcome,
leaves the document (in particular `winner`, `judge_decision` and
`judge_id`) unchanged, and performs no personality statistics updates. -/
theorem judge_already_judged_rejected (d : DebateDoc) (winner reasoning : String)
    (judge_id : Option String) (h : d.status = "judged") :
    api.judge_debate_route d winner reasoning judge_id = (.alreadyJudged, d, []) := by
  simp [api.judge_debate_route, h]

/-- Witness for C2: the already judged `judgedDoc` concretely. -/
theorem judge_already_judged_rejected_witness :
    judgedDoc.status = "judged"
    ∧ api.judge_debate_route judgedDoc "The Scientist" "" none
        = (.alreadyJudged, judgedDoc, []) :=
  ⟨rfl, judge_already_judged_rejected judgedDoc "The Scientist" "" none rfl⟩

/-- Claim C4: the start transition's conditional update succeeds exactly
when the stored status is `created`, and a successful start disables any
further start — so of two racing start calls (serialised by the store's
atomic `update_one`) at most one can succeed. -/
theorem start_debate_compare_and_set (d : DebateDoc) :
    ((DebateService.start_debate d).isSome ↔ d.status = "created")
    ∧ ∀ d1, DebateService.start_debate d = some d1 →
        DebateService.start_debate d1 = none := by
  constructor
  · by_cases h : d.status = "created" <;> simp [DebateService.start_debate, h]
  · intro d1 h1
    by_cases h : d.status = "created"
    · simp only [DebateService.start_debate, h, if_pos] at h1
      obtain rfl := (Option.some.injEq _ _).mp h1
      simp [DebateService.start_debate]
    · simp [DebateService.start_debate, h] at h1

/-- Witness for C4: starting the freshly created `createdDoc` succeeds, and
a second start on the result fails. -/
theorem start_debate_compare_and_set_witness :
    DebateService.start_debate createdDoc = some { createdDoc with status := "in_progress" }
    ∧ DebateService.start_debate { createdDoc with status := "in_progress" } = none :=
  ⟨rfl, (start_debate_compare_and_set createdDoc).2 _ rfl⟩

/-- Claim C5: advancing an in-progress debate that already sits at
`current_round = max_rounds` ends the debate: the route answers the ended
outcome, the status becomes `completed`, and no arguments are appended. -/
theorem advance_at_max_rounds_completes (d : DebateDoc)
    (gen : AIPersonality → Option String) (choose : AIPersonality → Nat)
    (roster : List AIPersonality) (h : d.status = "in_progress")
    (hr : d.current_round = d.max_rounds) :
    api.next_round_route d gen choose roster = (.ended, DebateService.end_debate d)
    ∧ (api.next_round_route d gen choose roster).2.status = "completed"
    ∧ (api.next_round_route d gen choose roster).2.arguments = d.arguments := by
  have hgt : d.current_round + 1 > d.max_rounds := by omega
  refine ⟨by simp [api.next_round_route, h, hgt], ?_, ?_⟩
  · simp [api.next_round_route, h, hgt, DebateService.end_debate]
  · simp [api.next_round_route, h, hgt, DebateService.end_debate]

/-- Witness for C5: `lastRoundDoc` is in progress at round 3 of 3; the
next-round call ends it without touching the argument list. -/
theorem advance_at_max_rounds_completes_witness :
    lastRoundDoc.status = "in_progress"
    ∧ lastRoundDoc.current_round = lastRoundDoc.max_rounds
    ∧ api.next_round_route lastRoundDoc genFail chooseZero [philosopherP, scientistP]
        = (.ended, DebateService.end_debate lastRoundDoc) :=
  ⟨rfl, rfl,
    (advance_at_max_rounds_completes lastRoundDoc genFail chooseZero
      [philosopherP, scientistP] rfl rfl).1⟩

theorem start_route_snd (d : DebateDoc) (gen : AIPersonality → Option String)
    (choose : AIPersonality → Nat) (roster : List AIPersonality) :
    (api.start_debate_route d gen choose roster).2
      = if d.status = "created" then
          { d with status := "in_progress"
                   arguments := d.arguments
                     ++ AIService.generate_debate_round roster gen choose d.topic 1 }
        else d := by
  by_cases h : d.status = "created" <;>
    simp [api.start_debate_route, DebateService.start_debate, h, add_arguments_eq]

theorem next_round_route_snd (d : DebateDoc) (gen : AIPersonality → Option String)
    (choose : AIPersonality → Nat) (roster : List AIPersonality) :
    (api.next_round_route d gen choose roster).2
      = if d.status = "in_progress" then
          (if d.current_round + 1 > d.max_rounds then DebateService.end_debate d
           else
             { d with current_round := d.current_round + 1
                      arguments := d.arguments
                        ++ AIService.generate_debate_round roster gen choose d.topic
                            (d.current_round + 1) })
        else d := by
  by_cases h : d.status = "in_progress"
  · by_cases h2 : d.current_round + 1 > d.max_rounds <;>
      simp [api.next_round_route, h, h2, add_arguments_eq, DebateService.update_round]
  · simp [api.next_round_route, h]

theorem judge_route_preserves (d : DebateDoc) (w r : String) (j : Option String) :
    (api.judge_debate_route d w r j).2.1.votes = d.votes
    ∧ (api.judge_debate_route d w r j).2.1.total_votes = d.total_votes
    ∧ (api.judge_debate_route d w r j).2.1.arguments = d.arguments
    ∧ (api.judge_debate_route d w r j).2.1.participants = d.participants := by
  simp only [api.judge_debate_route, DebateService.judge_debate]
  split_ifs <;> simp

theorem add_vote_snd (d : DebateDoc) (pid vid : String) :
    DebateService.add_vote d pid vid
      = (true, { d with
          votes := incVote d.votes pid
          total_votes := d.total_votes + 1
          voter_records := setVoterRecord d.voter_records vid pid }) := rfl

theorem generate_round_pids (roster : List AIPersonality)
    (gen : AIPersonality → Option String) (choose : AIPersonality → Nat)
    (topic : String) (r : Nat) :
    (AIService.generate_debate_round roster gen choose topic r).map (·.personality_id)
      = roster.map (·.name) := by
  unfold AIService.generate_debate_round
  rw [List.map_map]
  apply List.map_congr_left
  intro a _
  cases hg : gen a <;> simp [Function.comp, hg, AIService.create_fallback_argument]

theorem generate_round_rounds (roster : List AIPersonality)
    (gen : AIPersonality → Option String) (choose : AIPersonality → Nat)
    (topic : String) (r : Nat) :
    ∀ a ∈ AIService.generate_debate_round roster gen choose topic r,
      a.round_number = r := by
  intro a ha
  simp only [AIService.generate_debate_round, List.mem_map] at ha
  obtain ⟨p, _, rfl⟩ := ha
  cases gen p <;> simp [AIService.create_fallback_argument]

theorem mem_append_participants (d : DebateDoc) (roster : List AIPersonality)
    (gen : AIPersonality → Option String) (choose : AIPersonality → Nat)
    (topic : String) (r : Nat)
    (hp : d.participants = roster.map (·.name))
    (ha : ∀ a ∈ d.arguments, a.personality_id ∈ d.participants) :
    ∀ a ∈ d.arguments ++ AIService.generate_debate_round roster gen choose topic r,
      a.personality_id ∈ d.participants := by
  intro a hmem
  rcases List.mem_append.mp hmem with h1 | h2
  · exact ha a h1
  · have hm : a.personality_id
        ∈ (AIService.generate_debate_round roster gen choose topic r).map (·.personality_id) :=
      List.mem_map_of_mem _ h2
    rw [generate_round_pids] at hm
    rw [hp]
    exact hm

/-! ### Claims C6, C3, C7 -/

/-- Claim C6: on every reachable debate document — freshly created, or
after any sequence of start / next-round / vote / judge / end operations —
`total_votes` equals the sum of the `votes` map values: each recorded vote
increments exactly one participant count and the total together. -/
theorem total_votes_eq_sum_votes {R : List AIPersonality → Prop} {d : DebateDoc}
    (h : ReachableFrom R d) : d.total_votes = sumVotes d.votes := by
  induction h with
  | create topic creator_id roster hR => rfl
  | start d gen choose roster hR hd ih =>
    rw [start_route_snd]
    split <;> exact ih
  | next_round d gen choose roster hR hd ih =>
    rw [next_round_route_snd]
    split
    · split <;> exact ih
    · exact ih
  | vote d pid vid hd ih =>
    rw [add_vote_snd]
    show d.total_votes + 1 = sumVotes (incVote d.votes pid)
    rw [sumVotes_incVote, ih]
  | judge d w r j hd ih =>
    have hj := judge_route_preserves d w r j
    rw [hj.2.1, hj.1]
    exact ih
  | end_debate d hd ih => exact ih

/-- Witness for C6: the invariant evaluated on a concrete reachable state, a
fresh debate after one vote. -/
theorem total_votes_eq_sum_votes_witness :
    (DebateService.add_vote createdDoc "The Philosopher" "voter-9").2.total_votes
      = sumVotes (DebateService.add_vote createdDoc "The Philosopher" "voter-9").2.votes :=
  @total_votes_eq_sum_votes (fun _ => True) _
    (ReachableFrom.vote _ "The Philosopher" "voter-9"
      (ReachableFrom.create topicAV none [philosopherP, scientistP] trivial))

/-- Claim C3 (amended): one round-generation call returns exactly one
argument per personality of the registry roster it reads — generated or
fallback, never dropped — each with the requested round number; when the
roster names coincide with the debate's participant snapshot this is
exactly one argument per participant, N in total.  (The call reads the
current registry, not the snapshot; see the counterexample.) -/
theorem round_generation_one_per_roster (roster : List AIPersonality)
    (gen : AIPersonality → Option String) (choose : AIPersonality → Nat)
    (topic : String) (r : Nat) (ps : List String) :
    (AIService.generate_debate_round roster gen choose topic r).length = roster.length
    ∧ (AIService.generate_debate_round roster gen choose topic r).map (·.personality_id)
        = roster.map (·.name)
    ∧ (∀ a ∈ AIService.generate_debate_round roster gen choose topic r, a.round_number = r)
    ∧ (roster.map (·.name) = ps →
        (AIService.generate_debate_round roster gen choose topic r).length = ps.length
        ∧ (AIService.generate_debate_round roster gen choose topic r).map (·.personality_id)
            = ps) := by
  have hlen : (AIService.generate_debate_round roster gen choose topic r).length
      = roster.length := by
    simp [AIService.generate_debate_round]
  refine ⟨hlen, generate_round_pids roster gen choose topic r,
    generate_round_rounds roster gen choose topic r, ?_⟩
  intro hps
  constructor
  · rw [hlen, ← hps, List.length_map]
  · rw [generate_round_pids, hps]

/-- Witness for C3 (amended): with a two-personality roster matching the
participant list, the round yields two arguments, one per participant. -/
theorem round_generation_one_per_roster_witness :
    (AIService.generate_debate_round [philosopherP, scientistP] genFail chooseZero topicAV 1).length
      = ["The Philosopher", "The Scientist"].length
    ∧ (AIService.generate_debate_round [philosopherP, scientistP] genFail chooseZero
        topicAV 1).map (·.personality_id) = ["The Philosopher", "The Scientist"] :=
  (round_generation_one_per_roster [philosopherP, scientistP] genFail chooseZero topicAV 1
    ["The Philosopher", "The Scientist"]).2.2.2 rfl

/-- Counterexample to C3 as stated: a debate created while the registry
held a single personality (N = 1), whose round generation later runs over a
two-personality registry: the start route appends two arguments, not one
per debate participant. -/
theorem round_generation_roster_mismatch :
    (DebateService.create_debate "Registry grows after creation" none
      [philosopherP]).participants.length = 1
    ∧ (AIService.generate_debate_round [philosopherP, scientistP] genFail chooseZero
        "Registry grows after creation" 1).length = 2
    ∧ mismatchStart.arguments.length = 2 :=
  ⟨rfl, rfl, rfl⟩

/-- Counterexample to C7 as stated: `mismatchStart` is reachable (create
with a one-personality registry, then start after the registry grew), yet
its arguments contain an entry by "The Scientist", who is not among the
debate's participants. -/
theorem argument_outside_participants :
    ReachableFrom (fun _ => True) mismatchStart
    ∧ mismatchStart.participants = ["The Philosopher"]
    ∧ mismatchStart.arguments.map (·.personality_id)
        = ["The Philosopher", "The Scientist"]
    ∧ ¬ ("The Scientist" ∈ mismatchStart.participants) := by
  refine ⟨?_, rfl, rfl, by decide⟩
  exact ReachableFrom.start _ genFail chooseZero [philosopherP, scientistP] trivial
    (ReachableFrom.create "Registry grows after creation" none [philosopherP] trivial)

/-- Claim C7 (amended): as long as the registry roster stays the one the
debate was created from, every reachable document's arguments all carry a
`personality_id` inside the participant snapshot — the generation routes
draw their names from that same roster and no other operation appends
arguments. -/
theorem arguments_within_participants_fixed_roster (roster : List AIPersonality)
    (d : DebateDoc) (h : ReachableFrom (· = roster) d) :
    d.participants = roster.map (·.name)
    ∧ ∀ a ∈ d.arguments, a.personality_id ∈ d.participants := by
  induction h with
  | create topic creator_id roster2 hR =>
    cases hR
    exact ⟨rfl, by simp [DebateService.create_debate]⟩
  | start d gen choose roster2 hR hd ih =>
    cases hR
    obtain ⟨hp, ha⟩ := ih
    rw [start_route_snd]
    split
    · exact ⟨hp, mem_append_participants d roster gen choose d.topic 1 hp ha⟩
    · exact ⟨hp, ha⟩
  | next_round d gen choose roster2 hR hd ih =>
    cases hR
    obtain ⟨hp, ha⟩ := ih
    rw [next_round_route_snd]
    split
    · split
      · exact ⟨hp, ha⟩
      · exact ⟨hp, mem_append_participants d roster gen choose d.topic
          (d.current_round + 1) hp ha⟩
    · exact ⟨hp, ha⟩
  | vote d pid vid hd ih =>
    rw [add_vote_snd]
    exact ih
  | judge d w r j hd ih =>
    have hj := judge_route_preserves d w r j
    rw [hj.2.2.2, hj.2.2.1]
    exact ih
  | end_debate d hd ih => exact ih

/-- Witness for C7 (amended): the fixed-roster start of `createdDoc`
keeps the participant snapshot equal to the roster names. -/
theorem arguments_within_participants_fixed_roster_witness :
    startedDoc.participants = [philosopherP, scientistP].map (·.name) :=
  (arguments_within_participants_fixed_roster [philosopherP, scientistP] startedDoc
    (ReachableFrom.start createdDoc genFail chooseZero [philosopherP, scientistP] rfl
      (ReachableFrom.create topicAV none [philosopherP, scientistP] rfl))).1

/-! ### Claims C9, C10 -/

/-- Claim C9: both stat-update implementations recompute the running
average as `new_avg = (old_avg * old_n + votes_received) / new_n` with
`n` counting arguments contributed and `new_n = old_n + 1`, increment the
debate counter by one, and increment the win counter exactly when `won`;
the service additionally stores the average rounded to two decimals. -/
theorem update_stats_running_average (p : AIPersonality) (won : Bool) (v : ℚ)
    (w td ta : Nat) (avg : ℚ) :
    ((p.update_stats won v).average_votes
        = (p.average_votes * (p.total_arguments : ℚ) + v) / ((p.total_arguments : ℚ) + 1)
      ∧ (p.update_stats won v).total_arguments = p.total_arguments + 1
      ∧ (p.update_stats won v).total_debates = p.total_debates + 1
      ∧ (p.update_stats won v).wins = p.wins + (if won then 1 else 0))
    ∧ ((PersonalityService.update_personality_stats w td ta avg won v).new_average_votes
        = (avg * (ta : ℚ) + v) / ((ta : ℚ) + 1)
      ∧ (PersonalityService.update_personality_stats w td ta avg won v).new_total_arguments
          = ta + 1
      ∧ (PersonalityService.update_personality_stats w td ta avg won v).new_total_debates
          = td + 1
      ∧ (PersonalityService.update_personality_stats w td ta avg won v).new_wins
          = w + (if won then 1 else 0)
      ∧ (PersonalityService.update_personality_stats w td ta avg won v).stored_average
          = roundTo2 ((avg * (ta : ℚ) + v) / ((ta : ℚ) + 1))) := by
  constructor
  · have hfields : (p.update_stats won v).total_arguments = p.total_arguments + 1
        ∧ (p.update_stats won v).total_debates = p.total_debates + 1
        ∧ (p.update_stats won v).wins = p.wins + (if won then 1 else 0) := by
      simp only [AIPersonality.update_stats]
      split <;> exact ⟨rfl, rfl, rfl⟩
    refine ⟨?_, hfields.1, hfields.2.1, hfields.2.2⟩
    unfold AIPersonality.update_stats
    rcases Nat.eq_zero_or_pos p.total_arguments with h0 | hpos
    · simp [h0]
    · have hgt : p.total_arguments + 1 > 1 := by omega
      have hsub : p.total_arguments + 1 - 1 = p.total_arguments := by omega
      simp only [hgt, if_pos, hsub]
      push_cast
      ring_nf
  · have havg : (PersonalityService.update_personality_stats w td ta avg won v).new_average_votes
        = (avg * (ta : ℚ) + v) / ((ta : ℚ) + 1) := by
      unfold PersonalityService.update_personality_stats
      rcases Nat.eq_zero_or_pos ta with h0 | hpos
      · simp [h0]
      · have hgt : ta + 1 > 1 := by omega
        simp only [hgt, if_pos]
        push_cast
        ring_nf
    refine ⟨havg, rfl, rfl, rfl, ?_⟩
    show roundTo2 (PersonalityService.update_personality_stats w td ta avg won v).new_average_votes
      = roundTo2 ((avg * (ta : ℚ) + v) / ((ta : ℚ) + 1))
    rw [havg]

/-- Claim C10: the win-rate computation is total — the zero-debates guard
returns `0.0` before the (fallible) Python division is reached, and
otherwise the result is `(wins / total_debates) * 100` rounded to two
decimals; the model's and the helper's implementations agree. -/
theorem win_rate_total (p : AIPersonality) (w t : Nat) :
    (AIPersonality.get_win_rate p).isSome = true
    ∧ (calculate_win_rate w t).isSome = true
    ∧ AIPersonality.get_win_rate { p with wins := w, total_debates := t }
        = calculate_win_rate w t
    ∧ (p.total_debates = 0 → p.get_win_rate = some 0)
    ∧ (p.total_debates ≠ 0 →
        p.get_win_rate = some (roundTo2 ((p.wins : ℚ) / (p.total_debates : ℚ) * 100))) := by
  have hgen : ∀ (a b : Nat), b ≠ 0 →
      pyDiv (a : ℚ) (b : ℚ) = some ((a : ℚ) / (b : ℚ)) := by
    intro a b hb
    simp [pyDiv, Nat.cast_ne_zero.mpr hb]
  refine ⟨?_, ?_, ?_, ?_, ?_⟩
  · unfold AIPersonality.get_win_rate
    rcases Nat.eq_zero_or_pos p.total_debates with h0 | hpos
    · simp [h0]
    · have h0 : p.total_debates ≠ 0 := by omega
      simp [h0, hgen p.wins p.total_debates h0]
  · unfold calculate_win_rate
    rcases Nat.eq_zero_or_pos t with h0 | hpos
    · simp [h0]
    · have h0 : t ≠ 0 := by omega
      simp [h0, hgen w t h0]
  · unfold AIPersonality.get_win_rate calculate_win_rate
    rfl
  · intro h0
    simp [AIPersonality.get_win_rate, h0]
  · intro h0
    simp [AIPersonality.get_win_rate, h0, hgen p.wins p.total_debates h0]

/-- Witness for C10: a personality with one win in four debates has a
defined win rate, and a personality with zero debates gets `0.0`. -/
theorem win_rate_total_witness :
    (AIPersonality.get_win_rate { philosopherP with wins := 1, total_debates := 4 }).isSome = true
    ∧ AIPersonality.get_win_rate philosopherP = some 0 :=
  ⟨(win_rate_total { philosopherP with wins := 1, total_debates := 4 } 1 4).1,
    (win_rate_total philosopherP 1 4).2.2.2.1 rfl⟩

/-! ### Claim C8: the argument post-processing contract -/

theorem getD_mem {α : Type} {l : List α} {i : Nat} {d : α} (h : i < l.length) :
    l.getD i d ∈ l := by
  rw [List.getD_eq_getElem l d h]
  exact List.getElem_mem h

theorem endsTerm_append_right (l s : List Char) (h : endsTerm s = true) :
    endsTerm (l ++ s) = true := by
  unfold endsTerm at h ⊢
  cases hl : s.getLast? with
  | none => rw [hl] at h; exact absurd h (by simp)
  | some c =>
    rw [hl] at h
    rw [List.getLast?_append, hl]
    simpa [Option.or] using h

theorem ensureTerminal_spec (l : List Char) :
    ensureTerminal l = [] ∨ endsTerm (ensureTerminal l) = true := by
  unfold ensureTerminal
  by_cases hc : (!l.isEmpty && !endsTerm l) = true
  · right
    rw [if_pos hc]
    exact endsTerm_append_right l ['.'] (by decide)
  · rw [if_neg hc]
    by_cases he : l.isEmpty
    · left
      exact List.isEmpty_iff.mp he
    · by_cases ht : endsTerm l
      · right
        exact ht
      · exact absurd (by simp [he, ht]) hc

theorem cleanList_endsTerm (l : List Char) :
    cleanList l = [] ∨ endsTerm (cleanList l) = true :=
  ensureTerminal_spec _

theorem clean_endsTerm (s : String) (h : AIService.clean_and_validate_argument s ≠ "") :
    endsTerm (AIService.clean_and_validate_argument s).data = true := by
  unfold AIService.clean_and_validate_argument at h ⊢
  by_cases hs : s = ""
  · exact absurd (by rw [if_pos hs]) h
  · rw [if_neg hs] at h ⊢
    rcases cleanList_endsTerm s.data with h0 | h1
    · exact absurd (by rw [h0]) h
    · exact h1

theorem template_shape (pre mid suf : String) (hsuf : endsTerm suf.data = true)
    (hlen : 20 ≤ pre.length + suf.length) :
    endsTerm (pre ++ mid ++ suf).data = true ∧ 20 ≤ (pre ++ mid ++ suf).length := by
  constructor
  · have hd : (pre ++ mid ++ suf).data = (pre ++ mid).data ++ suf.data := by
      simp [String.data_append]
    rw [hd]
    exact endsTerm_append_right _ _ hsuf
  · have hl : (pre ++ mid ++ suf).length = pre.length + mid.length + suf.length := by
      simp [String.length_append]
    omega

set_option maxRecDepth 8000 in
theorem fallbackTemplates_prop (name topic : String) :
    ∀ t ∈ fallbackTemplates name topic, endsTerm t.data = true ∧ 20 ≤ t.length := by
  unfold fallbackTemplates
  split_ifs <;> intro t ht <;>
    simp only [List.mem_cons, List.not_mem_nil, or_false] at ht
  · rcases ht with rfl | rfl | rfl <;> exact template_shape _ _ _ (by decide) (by decide)
  · rcases ht with rfl | rfl | rfl <;> exact template_shape _ _ _ (by decide) (by decide)
  · rcases ht with rfl | rfl | rfl <;> exact template_shape _ _ _ (by decide) (by decide)
  · rcases ht with rfl | rfl | rfl <;> exact template_shape _ _ _ (by decide) (by decide)
  · rcases ht with rfl | rfl | rfl <;> exact template_shape _ _ _ (by decide) (by decide)
  · rcases ht with rfl | rfl | rfl <;> exact template_shape _ _ _ (by decide) (by decide)
  · rcases ht with rfl
    exact template_shape _ _ _ (by decide) (by decide)

theorem fallback_prop (p : AIPersonality) (topic : String) (r i : Nat) :
    endsTerm (AIService.generate_fallback_argument p topic r i).data = true
    ∧ 20 ≤ (AIService.generate_fallback_argument p topic r i).length := by
  unfold AIService.generate_fallback_argument
  apply fallbackTemplates_prop
  have hlen : 0 < (fallbackTemplates p.name topic).length := by
    unfold fallbackTemplates
    split_ifs <;> simp
  exact getD_mem (Nat.mod_lt _ hlen)

/-- Claim C8 (amended): a generator-path argument either is replaced by the
fallback (generation failure or cleaned text under 20 characters) or
satisfies the full post-processing contract — cleaned, at least 20
characters, at most `MAX_ARGUMENT_LENGTH` (truncated with an ellipsis when
too long), ending in terminal punctuation; a fallback argument always ends
in terminal punctuation and meets the minimum length, but it bypasses the
cleaning and truncation steps, so it is not bounded by the maximum length
(see the counterexample). -/
theorem generated_argument_postprocessing (p : AIPersonality) (topic : String)
    (r i : Nat) (genOut : Option String) :
    (AIService.generate_argument p topic r genOut i
        = AIService.generate_fallback_argument p topic r i
      ∨ (20 ≤ (AIService.generate_argument p topic r genOut i).length
        ∧ (AIService.generate_argument p topic r genOut i).length
            ≤ Config.MAX_ARGUMENT_LENGTH
        ∧ endsTerm (AIService.generate_argument p topic r genOut i).data = true))
    ∧ endsTerm (AIService.generate_fallback_argument p topic r i).data = true
    ∧ 20 ≤ (AIService.generate_fallback_argument p topic r i).length := by
  refine ⟨?_, (fallback_prop p topic r i).1, (fallback_prop p topic r i).2⟩
  cases genOut with
  | none => exact Or.inl rfl
  | some raw =>
    have hred : AIService.generate_argument p topic r (some raw) i
        = (if (AIService.clean_and_validate_argument
              (String.mk (stripList raw.data))).length < 20
           then AIService.generate_fallback_argument p topic r i
           else if (AIService.clean_and_validate_argument
              (String.mk (stripList raw.data))).length > Config.MAX_ARGUMENT_LENGTH
           then String.mk ((AIService.clean_and_validate_argument
              (String.mk (stripList raw.data))).data.take (Config.MAX_ARGUMENT_LENGTH - 3)
                ++ ['.', '.', '.'])
           else AIService.clean_and_validate_argument (String.mk (stripList raw.data))) :=
      rfl
    rw [hred]
    by_cases h20 :
        (AIService.clean_and_validate_argument (String.mk (stripList raw.data))).length < 20
    · rw [if_pos h20]
      exact Or.inl rfl
    · rw [if_neg h20]
      right
      by_cases hmax :
          (AIService.clean_and_validate_argument (String.mk (stripList raw.data))).length
            > Config.MAX_ARGUMENT_LENGTH
      · rw [if_pos hmax]
        have hC : Config.MAX_ARGUMENT_LENGTH = 500 := rfl
        have hdl : (AIService.clean_and_validate_argument
            (String.mk (stripList raw.data))).data.length
            = (AIService.clean_and_validate_argument
                (String.mk (stripList raw.data))).length := rfl
        have hlen : (String.mk ((AIService.clean_and_validate_argument
            (String.mk (stripList raw.data))).data.take (Config.MAX_ARGUMENT_LENGTH - 3)
              ++ ['.', '.', '.'])).length = 500 := by
          show ((AIService.clean_and_validate_argument
            (String.mk (stripList raw.data))).data.take (Config.MAX_ARGUMENT_LENGTH - 3)
              ++ ['.', '.', '.']).length = 500
          rw [List.length_append, List.length_take, hdl]
          have hb : (['.', '.', '.'] : List Char).length = 3 := rfl
          rw [hb]
          rw [hC] at hmax ⊢
          omega
        refine ⟨?_, ?_, ?_⟩
        · rw [hlen]
          norm_num
        · rw [hlen, hC]
        · show endsTerm ((AIService.clean_and_validate_argument
            (String.mk (stripList raw.data))).data.take (Config.MAX_ARGUMENT_LENGTH - 3)
              ++ ['.', '.', '.']) = true
          exact endsTerm_append_right _ _ (by decide)
      · rw [if_neg hmax]
        have hne : AIService.clean_and_validate_argument (String.mk (stripList raw.data))
            ≠ "" := by
          intro he
          rw [he] at h20
          exact h20 (by norm_num)
        exact ⟨by omega, by omega, clean_endsTerm _ hne⟩

set_option maxRecDepth 8000 in
/-- Counterexample to C8 as stated: with a 450-character topic (topics up
to 500 characters pass validation) and a failing generator, the round
generation emits the Philosopher fallback argument verbatim, whose content
is longer than `Config.MAX_ARGUMENT_LENGTH` — the fallback path applies no
truncation. -/
theorem fallback_exceeds_max_length :
    (AIService.generate_debate_round [philosopherP] genFail chooseZero longTopic 2).map
        (·.content)
      = [AIService.generate_fallback_argument philosopherP longTopic 2 0]
    ∧ Config.MAX_ARGUMENT_LENGTH
        < (AIService.generate_fallback_argument philosopherP longTopic 2 0).length := by
  constructor
  · rfl
  · show (500 : Nat) < _
    have h1 : AIService.generate_fallback_argument philosopherP longTopic 2 0
        = "From an ethical standpoint, we must carefully examine the moral implications of "
          ++ longTopic
          ++ " and consider how it affects human dignity and our collective well-being." := rfl
    rw [h1]
    have h2 : ("From an ethical standpoint, we must carefully examine the moral implications of "
          ++ longTopic
          ++ " and consider how it affects human dignity and our collective well-being.").length
        = "From an ethical standpoint, we must carefully examine the moral implications of ".length
          + longTopic.length
          + " and consider how it affects human dignity and our collective well-being.".length := by
      simp [String.length_append]
    rw [h2]
    have h3 : longTopic.length = 450 := by
      show (List.replicate 450 'a').length = 450
      simp
    rw [h3]
    decide
